import Mathlib

/-!
Verification development for the TradingServer repository: a shallow
embedding of its route handlers, schemas and file-handling logic, with
theorems settling the specification claims.

Sources embedded:
- src/controller/PaymentController.js (savePayment, userFormSchema)
- src/models/Payment.js (PaymentSchema)
- src/routes/TradingRoute.js (multer config, fileFilter,
  handleRegistrationErrors, and the POST /, GET /:id, PUT /:id,
  PUT /:id/status, PUT /:id/verify, DELETE /:id, GET /stats handlers)
- src/unnamed/part_001 (formControllers.submitForm)
-/

namespace TradingServer

/-! ## JavaScript value model

Request-body fields arrive as loosely typed JavaScript values.  `vNaN`
stands for the number NaN; every other number is a rational. -/

inductive JSVal where
  | vUndef
  | vNull
  | vBool (b : Bool)
  | vNum (q : ℚ)
  | vNaN
  | vStr (s : String)
deriving Repr, DecidableEq

/-- JavaScript truthiness: `undefined`, `null`, `false`, `0`, `NaN` and the
empty string are falsy; everything else is truthy. -/
def truthy : JSVal → Bool
  | .vUndef => false
  | .vNull => false
  | .vBool b => b
  | .vNum q => q != 0
  | .vNaN => false
  | .vStr s => s != ""

/-- Characters matched by the JavaScript regex class `\s` (the ones relevant
to amount strings). -/
def isJsSpace (c : Char) : Bool :=
  c = ' ' || c = '\t' || c = '\n' || c = '\r' || c = '\x0b' || c = '\x0c' || c = ' '

/-- The character class `[₹,\s]` used by savePayment to clean string amounts. -/
def isAmountJunk (c : Char) : Bool :=
  c = '₹' || c = ',' || isJsSpace c

/-- `amount.replace(/[₹,\s]/g, '')`: remove currency symbol, commas and
whitespace. -/
def stripAmount (s : String) : String :=
  String.mk (s.toList.filter (fun c => !(isAmountJunk c)))

/-- Value of a digit run read in base 10. -/
def digitsToNat (ds : List Char) : Nat :=
  ds.foldl (fun a c => a * 10 + (c.toNat - 48)) 0

/-- Exponent part of a JavaScript float literal (after the `e`/`E`); an
exponent with no digits contributes nothing, as in `parseFloat`. -/
def parseExp (cs : List Char) : Int :=
  match cs with
  | '-' :: rest =>
      let ds := rest.takeWhile Char.isDigit
      if ds.isEmpty then 0 else -(digitsToNat ds : Int)
  | '+' :: rest =>
      let ds := rest.takeWhile Char.isDigit
      if ds.isEmpty then 0 else (digitsToNat ds : Int)
  | _ =>
      let ds := cs.takeWhile Char.isDigit
      if ds.isEmpty then 0 else (digitsToNat ds : Int)

/-- JavaScript `parseFloat` on a string, with NaN modelled as `none`:
skip leading whitespace, optional sign, digits with an optional fraction
and exponent, trailing garbage ignored.  A string with no leading numeric
prefix parses to NaN.  (The `Infinity` literal is not modelled; no claim
involves it.) -/
def parseFloatStr (s : String) : Option ℚ :=
  let cs := s.toList.dropWhile isJsSpace
  let signed : ℚ × List Char :=
    match cs with
    | '-' :: rest => (-1, rest)
    | '+' :: rest => (1, rest)
    | _ => (1, cs)
  let sign := signed.1
  let cs1 := signed.2
  let intPart := cs1.takeWhile Char.isDigit
  let cs2 := cs1.dropWhile Char.isDigit
  let fraction : List Char × List Char :=
    match cs2 with
    | '.' :: rest => (rest.takeWhile Char.isDigit, rest.dropWhile Char.isDigit)
    | _ => ([], cs2)
  let fracPart := fraction.1
  let cs3 := fraction.2
  if intPart.isEmpty && fracPart.isEmpty then none
  else
    let mantissa : ℚ :=
      (digitsToNat intPart : ℚ) + (digitsToNat fracPart : ℚ) / ((10 : ℚ) ^ fracPart.length)
    let expVal : Int :=
      match cs3 with
      | 'e' :: rest => parseExp rest
      | 'E' :: rest => parseExp rest
      | _ => 0
    some (sign * mantissa * (10 : ℚ) ^ expVal)

/-- JavaScript `parseFloat` applied to a non-string value: the value is first
converted to a string, so numbers parse to themselves and `true`, `null`,
`undefined` and NaN parse to NaN. -/
def jsParseFloat : JSVal → Option ℚ
  | .vNum q => some q
  | .vStr s => parseFloatStr s
  | _ => none

/-! ## Payment model and controller (src/models/Payment.js,
src/controller/PaymentController.js) -/

/-- Declared types in a Mongoose schema. -/
inductive SchemaType where
  | sStr
  | sNum
  | sBool
  | sDate
deriving Repr, DecidableEq

/-- PaymentSchema declares `amount` with `type: String`. -/
def paymentSchemaAmountType : SchemaType := SchemaType.sStr

/-- PaymentSchema `paymentStatus` enum. -/
def paymentStatusEnum : List String := ["Paid", "Pending", "Failed"]

/-- PaymentSchema `paymentStatus` default. -/
def paymentStatusDefault : String := "Pending"

/-- A payment create request body as destructured by savePayment. -/
structure PaymentReq where
  userName : JSVal
  courseName : JSVal
  amount : JSVal
  paymentStatus : JSVal
  userPhone : JSVal
  userEmail : JSVal
deriving Repr, DecidableEq

/-- The document handed to the Payment model constructor; `amount` holds the
cleaned numeric value computed by the handler. -/
structure PaymentDoc where
  userName : JSVal
  courseName : JSVal
  amount : ℚ
  paymentStatus : JSVal
  userPhone : JSVal
  userEmail : JSVal
deriving Repr, DecidableEq

/-- Outcome of the POST /add handler. -/
inductive PayResult where
  | badRequest (message : String)
  | created (doc : PaymentDoc)
deriving Repr, DecidableEq

/-- The amount-cleaning step of savePayment: a string amount has currency
symbols, commas and whitespace stripped and is then parsed; any other value
goes through `parseFloat` directly. -/
def cleanAmountOf : JSVal → Option ℚ
  | .vStr s => parseFloatStr (stripAmount s)
  | v => jsParseFloat v

/-- savePayment (src/controller/PaymentController.js lines 6-53): require
the four fields to be truthy, clean and parse the amount, reject NaN with
400, otherwise construct the payment document with the numeric amount. -/
def savePayment (req : PaymentReq) : PayResult :=
  if !(truthy req.userName) || !(truthy req.courseName)
      || !(truthy req.amount) || !(truthy req.paymentStatus) then
    PayResult.badRequest "userName, courseName, amount, and paymentStatus are required"
  else
    match cleanAmountOf req.amount with
    | none => PayResult.badRequest "Invalid amount format. Please provide a valid number."
    | some q =>
        PayResult.created
          { userName := req.userName
            courseName := req.courseName
            amount := q
            paymentStatus := req.paymentStatus
            userPhone := req.userPhone
            userEmail := req.userEmail }

/-- Mongoose applies the schema default only when the field is undefined, so
the stored paymentStatus of a document is the given value unless it was
undefined. -/
def storedPaymentStatus (d : PaymentDoc) : JSVal :=
  if d.paymentStatus = JSVal.vUndef then JSVal.vStr paymentStatusDefault else d.paymentStatus

/-! ## UserForm schema (userFormSchema in src, lines 69-155 of the
PaymentController source file; the model is registered as `UserForm`)

Mongoose semantics modelled: setters (`trim`, `lowercase`) run before
validation; `required` on a String path fails when the value is missing or
(after setters) empty; `required` on a Boolean path fails only when the
value is missing; at most one error message is recorded per path; a `match`
pattern is an unanchored regex search. -/

/-- Characters the JavaScript regex `.` does not match. -/
def isJsNewline (c : Char) : Bool :=
  c = '\n' || c = '\r' || c = ' ' || c = ' '

/-- Unanchored search for the email pattern: one-or-more non-newline
characters, an at sign, one-or-more non-newline characters, a dot, then
one-or-more non-newline characters. -/
def emailMatch (s : String) : Bool :=
  let cs := s.toList
  let n := cs.length
  (List.range n).any (fun i =>
    cs.getD i ' ' == '@' && decide (1 ≤ i) && !(isJsNewline (cs.getD (i - 1) ' ')) &&
    ((List.range n).any (fun j =>
      decide (i + 2 ≤ j) && cs.getD j ' ' == '.' &&
      ((List.range n).all (fun t =>
        !(decide (i < t) && decide (t < j)) || !(isJsNewline (cs.getD t ' ')))) &&
      decide (j + 1 < n) && !(isJsNewline (cs.getD (j + 1) ' ')))))

/-- Anchored pattern of exactly `k` decimal digits. -/
def digitsExactly (k : Nat) (s : String) : Bool :=
  s.length = k && s.toList.all Char.isDigit

/-- A generic-registration submission as it reaches the Mongoose model:
`none` stands for a missing (undefined or null) field; `dateOfBirth` is a
millisecond timestamp. -/
structure UserFormInput where
  firstName : Option String
  lastName : Option String
  email : Option String
  phone : Option String
  dateOfBirth : Option Int
  address : Option String
  city : Option String
  state : Option String
  pincode : Option String
  aadharNumber : Option String
  aadharFile : Option String
  signatureFile : Option String
  agreeTerms : Option Bool
  agreeMarketing : Option Bool
deriving Repr, DecidableEq

/-- firstName: trim setter, required, minlength 2, maxlength 50. -/
def checkFirstName (u : UserFormInput) : List (String × String) :=
  match u.firstName with
  | none => [("firstName", "First name is required")]
  | some s =>
      let t := s.trim
      if t.length = 0 then [("firstName", "First name is required")]
      else if t.length < 2 then [("firstName", "First name must be at least 2 characters")]
      else if 50 < t.length then [("firstName", "First name cannot exceed 50 characters")]
      else []

/-- lastName: trim setter, required, minlength 2, maxlength 50. -/
def checkLastName (u : UserFormInput) : List (String × String) :=
  match u.lastName with
  | none => [("lastName", "Last name is required")]
  | some s =>
      let t := s.trim
      if t.length = 0 then [("lastName", "Last name is required")]
      else if t.length < 2 then [("lastName", "Last name must be at least 2 characters")]
      else if 50 < t.length then [("lastName", "Last name cannot exceed 50 characters")]
      else []

/-- email: trim and lowercase setters, required, pattern-validated. -/
def checkEmail (u : UserFormInput) : List (String × String) :=
  match u.email with
  | none => [("email", "Email is required")]
  | some s =>
      let t := s.trim.toLower
      if t.length = 0 then [("email", "Email is required")]
      else if !(emailMatch t) then [("email", "Please enter a valid email address")]
      else []

/-- phone: required, exactly 10 digits. -/
def checkPhone (u : UserFormInput) : List (String × String) :=
  match u.phone with
  | none => [("phone", "Phone number is required")]
  | some s =>
      if s.length = 0 then [("phone", "Phone number is required")]
      else if !(digitsExactly 10 s) then [("phone", "Phone number must be 10 digits")]
      else []

/-- dateOfBirth: required, custom validator `value < new Date()`. -/
def checkDateOfBirth (now : Int) (u : UserFormInput) : List (String × String) :=
  match u.dateOfBirth with
  | none => [("dateOfBirth", "Date of birth is required")]
  | some d =>
      if !(d < now) then [("dateOfBirth", "Date of birth must be in the past")]
      else []

/-- address: required, minlength 5 (no trim setter on this path). -/
def checkAddress (u : UserFormInput) : List (String × String) :=
  match u.address with
  | none => [("address", "Address is required")]
  | some s =>
      if s.length = 0 then [("address", "Address is required")]
      else if s.length < 5 then [("address", "Address must be at least 5 characters")]
      else []

/-- city: required. -/
def checkCity (u : UserFormInput) : List (String × String) :=
  match u.city with
  | none => [("city", "City is required")]
  | some s => if s.length = 0 then [("city", "City is required")] else []

/-- state: required. -/
def checkState (u : UserFormInput) : List (String × String) :=
  match u.state with
  | none => [("state", "State is required")]
  | some s => if s.length = 0 then [("state", "State is required")] else []

/-- pincode: required, exactly 6 digits. -/
def checkPincode (u : UserFormInput) : List (String × String) :=
  match u.pincode with
  | none => [("pincode", "Pincode is required")]
  | some s =>
      if s.length = 0 then [("pincode", "Pincode is required")]
      else if !(digitsExactly 6 s) then [("pincode", "Pincode must be 6 digits")]
      else []

/-- aadharNumber: required, exactly 12 digits. -/
def checkAadharNumber (u : UserFormInput) : List (String × String) :=
  match u.aadharNumber with
  | none => [("aadharNumber", "Aadhar number is required")]
  | some s =>
      if s.length = 0 then [("aadharNumber", "Aadhar number is required")]
      else if !(digitsExactly 12 s) then [("aadharNumber", "Aadhar number must be 12 digits")]
      else []

/-- aadharFile: required string (the stored path). -/
def checkAadharFile (u : UserFormInput) : List (String × String) :=
  match u.aadharFile with
  | none => [("aadharFile", "Aadhar file is required")]
  | some s => if s.length = 0 then [("aadharFile", "Aadhar file is required")] else []

/-- signatureFile: required string (the stored path). -/
def checkSignatureFile (u : UserFormInput) : List (String × String) :=
  match u.signatureFile with
  | none => [("signatureFile", "Signature file is required")]
  | some s => if s.length = 0 then [("signatureFile", "Signature file is required")] else []

/-- agreeTerms: required Boolean (present `false` passes `required`), plus
the custom validator demanding the literal `true`. -/
def checkAgreeTerms (u : UserFormInput) : List (String × String) :=
  match u.agreeTerms with
  | none => [("agreeTerms", "You must agree to the terms")]
  | some b =>
      if b != true then [("agreeTerms", "You must accept the terms and conditions")]
      else []

/-- All declarative rules of userFormSchema, evaluated together so that a
client sees every violation at once. -/
def validateUserForm (now : Int) (u : UserFormInput) : List (String × String) :=
  checkFirstName u ++ checkLastName u ++ checkEmail u ++ checkPhone u ++
  checkDateOfBirth now u ++ checkAddress u ++ checkCity u ++ checkState u ++
  checkPincode u ++ checkAadharNumber u ++ checkAadharFile u ++
  checkSignatureFile u ++ checkAgreeTerms u

/-- The persisted UserForm document: setters applied, `agreeMarketing`
defaulted to false when absent. -/
structure UserFormDoc where
  firstName : String
  lastName : String
  email : String
  phone : String
  dateOfBirth : Int
  address : String
  city : String
  state : String
  pincode : String
  aadharNumber : String
  aadharFile : String
  signatureFile : String
  agreeTerms : Bool
  agreeMarketing : Bool
deriving Repr, DecidableEq

/-- Outcome of an attempted UserForm save. -/
inductive SubmitOutcome where
  | saved (doc : UserFormDoc)
  | failed (errors : List (String × String))
deriving Repr, DecidableEq

/-- Saving a UserForm document: persist exactly when no declarative rule is
violated, applying setters and the `agreeMarketing` default. -/
def saveUserForm (now : Int) (u : UserFormInput) : SubmitOutcome :=
  match validateUserForm now u with
  | [] =>
      SubmitOutcome.saved
        { firstName := (u.firstName.getD "").trim
          lastName := (u.lastName.getD "").trim
          email := (u.email.getD "").trim.toLower
          phone := u.phone.getD ""
          dateOfBirth := u.dateOfBirth.getD 0
          address := u.address.getD ""
          city := u.city.getD ""
          state := u.state.getD ""
          pincode := u.pincode.getD ""
          aadharNumber := u.aadharNumber.getD ""
          aadharFile := u.aadharFile.getD ""
          signatureFile := u.signatureFile.getD ""
          agreeTerms := u.agreeTerms.getD false
          agreeMarketing := u.agreeMarketing.getD false }
  | errs => SubmitOutcome.failed errs

/-! ## Trading registration routes (src/routes/TradingRoute.js) -/

/-- Substring test, the semantics of `String.prototype.includes` and of an
unanchored alternation-free regex search. -/
def strContains (s pat : String) : Bool :=
  (List.range (s.length + 1)).any (fun i =>
    (s.toList.drop i).take pat.length == pat.toList)

/-- `field.charAt(0).toUpperCase() + field.slice(1)`. -/
def capitalizeField (s : String) : String :=
  match s.toList with
  | [] => ""
  | c :: rest => String.mk (c.toUpper :: rest)

/-- Errors reaching a route's catch block. -/
inductive JsError where
  | validationError (errs : List (String × String))
  | duplicateKey (field : String)
  | castObjectId
  | jsErr (message : String)
deriving Repr, DecidableEq

/-- The message-inspection tail of handleRegistrationErrors: `already
exists` messages go to `general`, `Invalid file type` messages to `file`,
anything else to `general` (with a fallback when the message is empty). -/
def classifyMessage (msg : String) : List (String × String) :=
  if strContains msg "already exists" then [("general", msg)]
  else if strContains msg "Invalid file type" then [("file", msg)]
  else [("general", if msg = "" then "An unexpected error occurred. Please try again." else msg)]

/-- handleRegistrationErrors (TradingRoute.js lines 88-109): build the
field-keyed error map from a caught error. -/
def handleRegistrationErrors : JsError → List (String × String)
  | .validationError errs => errs
  | .duplicateKey field =>
      [(field, capitalizeField field ++ " already exists. Please use a different " ++ field ++ ".")]
  | .castObjectId => classifyMessage "Cast to ObjectId failed for value"
  | .jsErr msg => classifyMessage msg

/-- An incoming multipart file as multer sees it. -/
structure UploadFile where
  fieldname : String
  originalname : String
  mimetype : String
  size : Nat
deriving Repr, DecidableEq

/-- `path.extname`: the substring from the last dot on, empty when there is
no dot or the only dot starts the name. -/
def extname (name : String) : String :=
  let cs := name.toList
  let idxs := (List.range cs.length).filter (fun i => cs.getD i ' ' == '.')
  match idxs.getLast? with
  | none => ""
  | some 0 => ""
  | some i => String.mk (cs.drop i)

/-- Per-field allowed-type alternation (the regex alternatives of
`allowedTypes`, with the catch-all default). -/
def allowedTokens (fieldname : String) : List String :=
  if fieldname = "aadharFile" then ["jpeg", "jpg", "png", "pdf"]
  else if fieldname = "signatureFile" then ["jpeg", "jpg", "png"]
  else ["jpeg", "jpg", "png", "pdf"]

/-- `regex.test` for an unanchored alternation of literal tokens: true iff
some token occurs as a substring. -/
def regexTest (tokens : List String) (s : String) : Bool :=
  tokens.any (fun t => strContains s t)

/-- `regex.source` of the alternation. -/
def regexSource (tokens : List String) : String :=
  String.intercalate "|" tokens

/-- fileFilter (TradingRoute.js lines 55-71): accept iff both the lowercased
extension and the declared mimetype pass the per-field regex; otherwise
produce the descriptive error message. -/
def fileFilter (file : UploadFile) : Option String :=
  let tokens := allowedTokens file.fieldname
  let extOk := regexTest tokens ((extname file.originalname).toLower)
  let mimeOk := regexTest tokens file.mimetype
  if mimeOk && extOk then none
  else some ("Invalid file type for " ++ file.fieldname ++ ". Only " ++
    regexSource tokens ++ " files are allowed.")

/-- The multer `limits.fileSize` value: 5 MiB. -/
def fileSizeLimit : Nat := 5 * 1024 * 1024

/-- What multer does to one file: reject via fileFilter, or reject when the
size exceeds the limit. -/
def multerCheck (file : UploadFile) : Option JsError :=
  match fileFilter file with
  | some msg => some (JsError.jsErr msg)
  | none => if fileSizeLimit < file.size then some (JsError.jsErr "File too large") else none

/-- The upload middleware over all files of a request: the first rejection,
if any. -/
def multerRun (files : List UploadFile) : Option JsError :=
  files.findSome? multerCheck

/-- Stored file metadata as built by formatFileData. -/
structure FileData where
  filename : String
  originalName : String
  mimetype : String
  size : Nat
  path : String
deriving Repr, DecidableEq

/-- The `verificationStatus` sub-document of a trading registration. -/
structure VerificationStatus where
  aadharVerified : Bool
  panVerified : Bool
  signatureVerified : Bool
  emailVerified : Bool
  phoneVerified : Bool
deriving Repr, DecidableEq

/-- Modelled from the spec: the TradingRegistration model file
(models/TradingRegistration.js) is not among the sources; per §3 the derived
`isFullyVerified()` predicate is the AND of the four tracked flags with PAN
excluded, which the stats aggregation in routes/TradingRoute.js corroborates. -/
def isFullyVerified (v : VerificationStatus) : Bool :=
  v.aadharVerified && v.signatureVerified && v.emailVerified && v.phoneVerified

/-- A stored trading registration document. -/
structure TradingReg where
  id : Nat
  firstName : String
  lastName : String
  email : String
  phone : String
  registrationStatus : String
  adminNotes : String
  verificationStatus : VerificationStatus
  submissionDate : Int
  aadharFile : Option FileData
  panFile : Option FileData
  signatureFile : Option FileData
deriving Repr, DecidableEq

/-- A request identifier: either a well-formed object id or a malformed
string, which makes the driver throw a cast error of kind ObjectId. -/
inductive RegId where
  | valid (n : Nat)
  | malformed (s : String)
deriving Repr, DecidableEq

/-- `findById`: throw on a malformed id, otherwise the first matching
document, if any. -/
def findById (db : List TradingReg) (id : RegId) : Except JsError (Option TradingReg) :=
  match id with
  | .malformed _ => Except.error JsError.castObjectId
  | .valid n => Except.ok (db.find? (fun r => r.id == n))

/-- `findByIdAndUpdate` with `new: true`: throw on a malformed id; when a
document matches, apply the update and return the updated document together
with the new collection state. -/
def findByIdAndUpdate (db : List TradingReg) (id : RegId) (f : TradingReg → TradingReg) :
    Except JsError (Option TradingReg × List TradingReg) :=
  match id with
  | .malformed _ => Except.error JsError.castObjectId
  | .valid n =>
      match db.find? (fun r => r.id == n) with
      | none => Except.ok (none, db)
      | some r => Except.ok (some (f r), db.map (fun x => if x.id == n then f x else x))

/-- `if (fs.existsSync(p)) fs.unlinkSync(p)`: remove a path from the disk
set when present, silently skip it otherwise. -/
def unlinkIfExists (disk : List String) (p : String) : List String :=
  if disk.contains p then disk.filter (fun q => q != p) else disk

/-- Minimal JSON response: status, success flag, message. -/
structure SimpleResp where
  status : Nat
  success : Bool
  message : String
deriving Repr, DecidableEq

/-- Response of the create and update handlers, carrying the error map. -/
structure CreateResp where
  status : Nat
  success : Bool
  message : String
  errors : List (String × String)
deriving Repr, DecidableEq

/-- POST / (TradingRoute.js lines 127-183), from the point where the handler
runs: the uploaded files are already on disk at `writtenPaths`; `saveErr`
is the outcome of `registration.save()`.  On failure every file written
during this request is unlinked and the handler answers 400 with the
field-keyed error map. -/
def createRegistration (db : List TradingReg) (disk : List String)
    (newReg : TradingReg) (writtenPaths : List String) (saveErr : Option JsError) :
    CreateResp × List TradingReg × List String :=
  match saveErr with
  | none =>
      ({ status := 201, success := true, message := "Registration submitted successfully!",
         errors := [] }, db ++ [newReg], disk)
  | some e =>
      let disk' := writtenPaths.foldl unlinkIfExists disk
      ({ status := 400, success := false, message := "Registration failed",
         errors := handleRegistrationErrors e }, db, disk')

/-- Outcome of the whole POST / request: either Express's default final
handler answered (no route handler ran, no JSON error map was built), or
the route handler produced its response. -/
inductive PipelineOutcome where
  | expressError (status : Nat)
  | handled (resp : CreateResp)
deriving Repr, DecidableEq

/-- The whole POST / pipeline: the upload middleware runs first.  A multer
rejection (fileFilter or the size limit) is passed to next(err); no
error-handling middleware is registered anywhere in the application, so
Express's default final handler answers 500 and the route handler — and
with it handleRegistrationErrors — never runs: no save is attempted and
nothing is added to the disk.  Otherwise the files are written and the
handler runs.  The final Bool records whether a database save was
attempted. -/
def postRegistrationPipeline (db : List TradingReg) (disk : List String)
    (files : List UploadFile) (writtenPaths : List String) (newReg : TradingReg)
    (saveErr : Option JsError) : PipelineOutcome × List TradingReg × List String × Bool :=
  match multerRun files with
  | some _ => (PipelineOutcome.expressError 500, db, disk, false)
  | none =>
      let out := createRegistration db (disk ++ writtenPaths) newReg writtenPaths saveErr
      (PipelineOutcome.handled out.1, out.2.1, out.2.2, true)

/-- Response of GET /:id. -/
structure GetResp where
  status : Nat
  success : Bool
  message : Option String
  data : Option TradingReg
deriving Repr, DecidableEq

/-- GET /:id (TradingRoute.js lines 365-397): 404 when nothing matches, and
the catch block turns a cast error of kind ObjectId into the same 404. -/
def getRegistration (db : List TradingReg) (id : RegId) : GetResp :=
  match findById db id with
  | .error e =>
      if e = JsError.castObjectId then
        { status := 404, success := false, message := some "Registration not found", data := none }
      else
        { status := 500, success := false, message := some "Failed to fetch registration", data := none }
  | .ok none =>
      { status := 404, success := false, message := some "Registration not found", data := none }
  | .ok (some r) =>
      { status := 200, success := true, message := none, data := some r }

/-- Valid registration statuses, from the status-update handler. -/
def validStatuses : List String := ["pending", "approved", "rejected", "under_review"]

/-- The update document of PUT /:id/status: set the status and, only when
adminNotes is truthy, the notes. -/
def applyStatusUpdate (st : String) (notes : Option String) (r : TradingReg) : TradingReg :=
  let r1 := { r with registrationStatus := st }
  match notes with
  | some n => if n != "" then { r1 with adminNotes := n } else r1
  | none => r1

/-- Response of PUT /:id/status; data carries (id, registrationStatus,
adminNotes) as in the handler's response body. -/
structure StatusResp where
  status : Nat
  success : Bool
  message : String
  data : Option (Nat × String × String)
deriving Repr, DecidableEq

/-- PUT /:id/status (TradingRoute.js lines 478-526): reject a status outside
the enum with 400 before touching the database, otherwise update and answer
with the new status. -/
def updateStatus (db : List TradingReg) (id : RegId)
    (status : Option String) (adminNotes : Option String) :
    StatusResp × List TradingReg :=
  match status with
  | some st =>
      if validStatuses.contains st then
        match findByIdAndUpdate db id (applyStatusUpdate st adminNotes) with
        | .error _ =>
            ({ status := 500, success := false,
               message := "Failed to update registration status", data := none }, db)
        | .ok (none, db') =>
            ({ status := 404, success := false, message := "Registration not found",
               data := none }, db')
        | .ok (some r, db') =>
            ({ status := 200, success := true,
               message := "Registration status updated successfully",
               data := some (r.id, r.registrationStatus, r.adminNotes) }, db')
      else
        ({ status := 400, success := false, message := "Invalid status value", data := none }, db)
  | none =>
      ({ status := 400, success := false, message := "Invalid status value", data := none }, db)

/-- The fixed set of verification-field names accepted by PUT /:id/verify. -/
def validTypes : List String :=
  ["aadharVerified", "panVerified", "signatureVerified", "emailVerified", "phoneVerified"]

/-- The `$set` on `verificationStatus.<type>`: flip exactly the named flag. -/
def setVerificationFlag (ty : String) (b : Bool) (v : VerificationStatus) : VerificationStatus :=
  if ty = "aadharVerified" then { v with aadharVerified := b }
  else if ty = "panVerified" then { v with panVerified := b }
  else if ty = "signatureVerified" then { v with signatureVerified := b }
  else if ty = "emailVerified" then { v with emailVerified := b }
  else if ty = "phoneVerified" then { v with phoneVerified := b }
  else v

/-- Read a verification flag by its field name (for stating frame
conditions). -/
def flagValue (ty : String) (v : VerificationStatus) : Bool :=
  if ty = "aadharVerified" then v.aadharVerified
  else if ty = "panVerified" then v.panVerified
  else if ty = "signatureVerified" then v.signatureVerified
  else if ty = "emailVerified" then v.emailVerified
  else if ty = "phoneVerified" then v.phoneVerified
  else false

/-- Response of PUT /:id/verify; on success it carries the stored
verification record and the recomputed predicate. -/
structure VerifyResp where
  status : Nat
  success : Bool
  message : String
  verificationStatus : Option VerificationStatus
  fullyVerified : Option Bool
deriving Repr, DecidableEq

/-- PUT /:id/verify (TradingRoute.js lines 531-577): reject a verification
type outside the fixed set with 400 before touching the database, otherwise
set that single flag and answer with the recomputed isFullyVerified. -/
def updateVerification (db : List TradingReg) (id : RegId)
    (verificationType : Option String) (isVerified : Bool) :
    VerifyResp × List TradingReg :=
  match verificationType with
  | some t =>
      if validTypes.contains t then
        match findByIdAndUpdate db id
            (fun r => { r with verificationStatus := setVerificationFlag t isVerified r.verificationStatus }) with
        | .error _ =>
            ({ status := 500, success := false,
               message := "Failed to update verification status",
               verificationStatus := none, fullyVerified := none }, db)
        | .ok (none, db') =>
            ({ status := 404, success := false, message := "Registration not found",
               verificationStatus := none, fullyVerified := none }, db')
        | .ok (some r, db') =>
            ({ status := 200, success := true,
               message := "Verification status updated successfully",
               verificationStatus := some r.verificationStatus,
               fullyVerified := some (isFullyVerified r.verificationStatus) }, db')
      else
        ({ status := 400, success := false, message := "Invalid verification type",
           verificationStatus := none, fullyVerified := none }, db)
  | none =>
      ({ status := 400, success := false, message := "Invalid verification type",
         verificationStatus := none, fullyVerified := none }, db)

/-- The `filesToDelete` array of DELETE /:id: the referenced paths, with
missing fields and falsy (empty) paths filtered out by `.filter(Boolean)`. -/
def refPaths (r : TradingReg) : List String :=
  ([r.aadharFile.map FileData.path, r.panFile.map FileData.path,
    r.signatureFile.map FileData.path].reduceOption).filter (fun p => p != "")

/-- DELETE /:id (TradingRoute.js lines 582-623): 404 when nothing matches;
otherwise unlink every referenced path that exists on disk (skipping the
missing ones), remove the document, and answer success unconditionally.  A
malformed id makes findById throw, which the catch block turns into 500. -/
def deleteRegistration (db : List TradingReg) (disk : List String) (id : RegId) :
    SimpleResp × List TradingReg × List String :=
  match id with
  | .malformed _ =>
      ({ status := 500, success := false, message := "Failed to delete registration" }, db, disk)
  | .valid n =>
      match db.find? (fun r => r.id == n) with
      | none =>
          ({ status := 404, success := false, message := "Registration not found" }, db, disk)
      | some r =>
          let disk' := (refPaths r).foldl unlinkIfExists disk
          ({ status := 200, success := true, message := "Registration deleted successfully" },
           db.eraseP (fun x => x.id == n), disk')

/-- The files uploaded with a PUT /:id request, one optional file per
multipart field referenced by the handler. -/
structure UpdateFiles where
  aadharFile : Option FileData
  panFile : Option FileData
  signatureFile : Option FileData
deriving Repr, DecidableEq

/-- The paths written to disk for this update request. -/
def writtenPathsOf (files : UpdateFiles) : List String :=
  [files.aadharFile.map FileData.path, files.panFile.map FileData.path,
   files.signatureFile.map FileData.path].reduceOption

/-- The old-file unlinking of PUT /:id: for each file field present in the
request, delete the previously stored file from disk when it exists. -/
def diskAfterSupersede (r : TradingReg) (files : UpdateFiles) (disk : List String) : List String :=
  let d1 := match files.aadharFile, r.aadharFile with
    | some _, some ofd => unlinkIfExists disk ofd.path
    | _, _ => disk
  let d2 := match files.panFile, r.panFile with
    | some _, some ofd => unlinkIfExists d1 ofd.path
    | _, _ => d1
  match files.signatureFile, r.signatureFile with
  | some _, some ofd => unlinkIfExists d2 ofd.path
  | _, _ => d2

/-- Merge the newly uploaded file metadata over a document's file fields. -/
def applyFilePatch (files : UpdateFiles) (r : TradingReg) : TradingReg :=
  { r with
    aadharFile := match files.aadharFile with | some f => some f | none => r.aadharFile
    panFile := match files.panFile with | some f => some f | none => r.panFile
    signatureFile := match files.signatureFile with | some f => some f | none => r.signatureFile }

/-- Response of PUT /:id. -/
structure UpdateResp where
  status : Nat
  success : Bool
  message : String
  errors : List (String × String)
  data : Option TradingReg
deriving Repr, DecidableEq

/-- PUT /:id (TradingRoute.js lines 402-473): find the document (a cast
error lands in the catch block, which unlinks this request's uploads and
answers 400); 404 when nothing matches; otherwise unlink superseded old
files, then attempt the validated update (`patch` is the body merge), and on
failure unlink this request's uploads and answer 400 with the error map. -/
def updateRegistration (db : List TradingReg) (disk : List String) (id : RegId)
    (patch : TradingReg → TradingReg) (files : UpdateFiles) (saveErr : Option JsError) :
    UpdateResp × List TradingReg × List String :=
  match id with
  | .malformed _ =>
      let disk' := (writtenPathsOf files).foldl unlinkIfExists disk
      ({ status := 400, success := false, message := "Failed to update registration",
         errors := handleRegistrationErrors JsError.castObjectId, data := none }, db, disk')
  | .valid n =>
      match db.find? (fun r => r.id == n) with
      | none =>
          ({ status := 404, success := false, message := "Registration not found",
             errors := [], data := none }, db, disk)
      | some r =>
          let disk1 := diskAfterSupersede r files disk
          match saveErr with
          | some e =>
              let disk2 := (writtenPathsOf files).foldl unlinkIfExists disk1
              ({ status := 400, success := false, message := "Failed to update registration",
                 errors := handleRegistrationErrors e, data := none }, db, disk2)
          | none =>
              ({ status := 200, success := true, message := "Registration updated successfully",
                 errors := [], data := some (applyFilePatch files (patch r)) },
               db.map (fun x => if x.id == n then applyFilePatch files (patch x) else x), disk1)

/-- The `$project` stage of the verification aggregation in GET /stats:
`$and` of exactly the four listed flags. -/
def aggFullyVerified (r : TradingReg) : Bool :=
  r.verificationStatus.aadharVerified && r.verificationStatus.signatureVerified &&
  r.verificationStatus.emailVerified && r.verificationStatus.phoneVerified

/-- The status-breakdown aggregation: one count per distinct status. -/
def statusBreakdown (db : List TradingReg) : List (String × Nat) :=
  ((db.map TradingReg.registrationStatus).dedup).map
    (fun s => (s, (db.filter (fun r => r.registrationStatus == s)).length))

/-- The data object of the GET /stats response. -/
structure StatsData where
  breakdown : List (String × Nat)
  totalRegistrations : Nat
  todayRegistrations : Nat
  verifiedCount : Nat
  notVerifiedCount : Nat
deriving Repr, DecidableEq

/-- GET /stats (TradingRoute.js lines 253-310).  `localMidnight` is the
value of `new Date(new Date().setHours(0,0,0,0))`, local midnight of the
current day; the today-count uses `$gte` against it. -/
def getStats (db : List TradingReg) (localMidnight : Int) : StatsData :=
  { breakdown := statusBreakdown db
    totalRegistrations := db.length
    todayRegistrations := (db.filter (fun r => localMidnight ≤ r.submissionDate)).length
    verifiedCount := (db.filter (fun r => aggFullyVerified r)).length
    notVerifiedCount := (db.filter (fun r => !(aggFullyVerified r))).length }

/-! ## Generic registration submit (formControllers.submitForm) -/

/-- Status-and-message response of the generic submit handler (its JSON
bodies carry only a message). -/
structure MsgResp where
  status : Nat
  message : String
deriving Repr, DecidableEq

/-- The body fields submitForm destructures (only the first three take part
in its explicit required check). -/
structure SubmitBody where
  firstName : JSVal
  lastName : JSVal
  email : JSVal
deriving Repr, DecidableEq

/-- submitForm (formControllers, src/unnamed/part_001 lines 3-44): the files
were already written to disk by the upload middleware; `req.files?.X?.[0]?.path
|| null` turns a missing or empty path into null; a missing required field
or file answers 400, a failed save answers 500 — in neither case is any
file deleted from disk. -/
def submitForm (body : SubmitBody) (aadharPath signaturePath : Option String)
    (disk : List String) (saveErr : Option JsError) : MsgResp × List String :=
  let aadharFile : Option String :=
    match aadharPath with
    | some p => if p = "" then none else some p
    | none => none
  let signatureFile : Option String :=
    match signaturePath with
    | some p => if p = "" then none else some p
    | none => none
  if !(truthy body.firstName) || !(truthy body.lastName) || !(truthy body.email)
      || aadharFile.isNone || signatureFile.isNone then
    ({ status := 400, message := "Missing required fields or files." }, disk)
  else
    match saveErr with
    | some _ => ({ status := 500, message := "Something went wrong. Please try again." }, disk)
    | none => ({ status := 201, message := "Form submitted successfully!" }, disk)

/-! ## Theorems -/

/-- C9: for every payment create request passing the required-field check,
the handler normalizes the amount before persisting: a string amount has
currency symbols, commas and whitespace stripped and is parsed as a number;
a value that does not parse yields the 400 message with nothing persisted;
and the document handed to persistence carries the resulting number in its
amount field even though the Payment schema declares amount as a string. -/
theorem C9_amount_normalization (req : PaymentReq)
    (h1 : truthy req.userName = true) (h2 : truthy req.courseName = true)
    (h3 : truthy req.amount = true) (h4 : truthy req.paymentStatus = true) :
    (∀ s, req.amount = JSVal.vStr s →
      cleanAmountOf req.amount = parseFloatStr (stripAmount s) ∧
      stripAmount s = String.mk (s.toList.filter
        (fun c => !(c = '₹' || c = ',' || isJsSpace c)))) ∧
    (cleanAmountOf req.amount = none →
      savePayment req =
        PayResult.badRequest "Invalid amount format. Please provide a valid number." ∧
      ∀ d, savePayment req ≠ PayResult.created d) ∧
    (∀ q, cleanAmountOf req.amount = some q →
      ∃ d, savePayment req = PayResult.created d ∧ d.amount = q) ∧
    paymentSchemaAmountType = SchemaType.sStr := by
  have hcond : (!(truthy req.userName) || !(truthy req.courseName)
      || !(truthy req.amount) || !(truthy req.paymentStatus)) = false := by
    simp [h1, h2, h3, h4]
  refine ⟨?_, ?_, ?_, rfl⟩
  · intro s hs
    exact ⟨by simp [cleanAmountOf, hs], by simp [stripAmount, isAmountJunk]⟩
  · intro hnone
    constructor
    · simp [savePayment, hcond, hnone]
    · intro d
      simp [savePayment, hcond, hnone]
  · intro q hq
    refine ⟨{ userName := req.userName, courseName := req.courseName, amount := q,
              paymentStatus := req.paymentStatus, userPhone := req.userPhone,
              userEmail := req.userEmail }, ?_, rfl⟩
    simp [savePayment, hcond, hq]

/-- C9 witness: a concrete non-numeric amount is rejected with the 400
message. -/
theorem C9_amount_normalization_witness :
    savePayment
        { userName := JSVal.vStr "Asha", courseName := JSVal.vStr "Algo",
          amount := JSVal.vStr "abc", paymentStatus := JSVal.vStr "Paid",
          userPhone := JSVal.vUndef, userEmail := JSVal.vUndef } =
      PayResult.badRequest "Invalid amount format. Please provide a valid number." :=
  ((C9_amount_normalization _ (by decide) (by decide) (by decide) (by decide)).2.1
    (by decide)).1

/-- C10: savePayment's required-field check treats falsy values as missing:
an amount equal to the number 0 is rejected with the 400 required message, a
missing paymentStatus is likewise rejected, and every persisted document
carries a truthy (hence defined) paymentStatus, so the schema default
Pending, which Mongoose applies only to undefined values, is unreachable
through this endpoint. -/
theorem C10_falsy_required (req : PaymentReq) :
    (req.amount = JSVal.vNum 0 →
      savePayment req =
        PayResult.badRequest "userName, courseName, amount, and paymentStatus are required") ∧
    (req.paymentStatus = JSVal.vUndef →
      savePayment req =
        PayResult.badRequest "userName, courseName, amount, and paymentStatus are required") ∧
    (∀ d, savePayment req = PayResult.created d →
      truthy d.paymentStatus = true ∧ storedPaymentStatus d = d.paymentStatus ∧
      paymentStatusDefault = "Pending") := by
  refine ⟨?_, ?_, ?_⟩
  · intro h
    simp [savePayment, h, truthy]
  · intro h
    simp [savePayment, h, truthy]
  · intro d h
    unfold savePayment at h
    split at h
    · exact absurd h (by simp)
    · rename_i hcond
      rw [Bool.or_eq_true, Bool.or_eq_true, Bool.or_eq_true] at hcond
      push_neg at hcond
      have hps : truthy req.paymentStatus = true := by
        simpa using hcond.2
      split at h
      · exact absurd h (by simp)
      · rename_i q hq
        injection h with h
        subst h
        refine ⟨hps, ?_, rfl⟩
        have hne : req.paymentStatus ≠ JSVal.vUndef := by
          intro he
          rw [he] at hps
          simp [truthy] at hps
        simp [storedPaymentStatus, hne]

/-- C10 witness: a concrete request with amount 0 is rejected with the
required-fields message. -/
theorem C10_falsy_required_witness :
    savePayment
        { userName := JSVal.vStr "Asha", courseName := JSVal.vStr "Algo",
          amount := JSVal.vNum 0, paymentStatus := JSVal.vStr "Paid",
          userPhone := JSVal.vUndef, userEmail := JSVal.vUndef } =
      PayResult.badRequest "userName, courseName, amount, and paymentStatus are required" :=
  (C10_falsy_required _).1 rfl

/-- C6: GET /:id answers 404 both when no record matches a well-formed id
and when the id is malformed (the cast error of kind ObjectId is mapped to
the same not-found response rather than a 500), and the two responses are
identical. -/
theorem C6_get_not_found (db : List TradingReg) (s : String) (n : Nat)
    (hnone : db.find? (fun r => r.id == n) = none) :
    getRegistration db (RegId.malformed s) =
      { status := 404, success := false, message := some "Registration not found", data := none } ∧
    getRegistration db (RegId.valid n) =
      { status := 404, success := false, message := some "Registration not found", data := none } ∧
    getRegistration db (RegId.malformed s) = getRegistration db (RegId.valid n) ∧
    (getRegistration db (RegId.malformed s)).status ≠ 500 := by
  have hm : getRegistration db (RegId.malformed s) =
      { status := 404, success := false, message := some "Registration not found", data := none } := by
    simp [getRegistration, findById]
  have hv : getRegistration db (RegId.valid n) =
      { status := 404, success := false, message := some "Registration not found", data := none } := by
    simp [getRegistration, findById, hnone]
  refine ⟨hm, hv, hm.trans hv.symm, ?_⟩
  rw [hm]
  decide

/-- C6 witness: the empty collection with a malformed and an unmatched id. -/
theorem C6_get_not_found_witness :
    getRegistration [] (RegId.malformed "not-an-objectid") =
      { status := 404, success := false, message := some "Registration not found", data := none } :=
  (C6_get_not_found [] "not-an-objectid" 7 rfl).1

/-- GET /:id on a collection whose lookup finds a record answers 200 with
that record. -/
theorem getRegistration_found (db : List TradingReg) (n : Nat) (r : TradingReg)
    (h : db.find? (fun x => x.id == n) = some r) :
    getRegistration db (RegId.valid n) =
      { status := 200, success := true, message := none, data := some r } := by
  simp [getRegistration, findById, h]

/-- C3: PUT /:id/status with a status in {pending, approved, rejected,
under_review} updates registrationStatus to that value, which a subsequent
GET reflects; any other status yields 400 and returns the collection
unchanged, so the stored record is untouched. -/
theorem C3_status_update (db : List TradingReg) (id : RegId) (n : Nat)
    (st : String) (notes : Option String) :
    (∀ r, st ∈ validStatuses → db.find? (fun x => x.id == n) = some r →
      updateStatus db (RegId.valid n) (some st) notes =
        ({ status := 200, success := true,
           message := "Registration status updated successfully",
           data := some (r.id, st, (applyStatusUpdate st notes r).adminNotes) },
         db.map (fun x => if x.id == n then applyStatusUpdate st notes x else x)) ∧
      (applyStatusUpdate st notes r).registrationStatus = st ∧
      (∃ r', getRegistration
          (db.map (fun x => if x.id == n then applyStatusUpdate st notes x else x))
          (RegId.valid n) =
        { status := 200, success := true, message := none, data := some r' } ∧
        r'.registrationStatus = st)) ∧
    (st ∉ validStatuses →
      updateStatus db id (some st) notes =
        ({ status := 400, success := false, message := "Invalid status value", data := none }, db)) := by
  constructor
  · intro r hst hfind
    have hc : validStatuses.contains st = true := List.elem_eq_true_of_mem hst
    have hid : (applyStatusUpdate st notes r).id = r.id := by
      unfold applyStatusUpdate
      rcases notes with _ | nt
      · rfl
      · dsimp only
        split <;> rfl
    have hstatus : (applyStatusUpdate st notes r).registrationStatus = st := by
      unfold applyStatusUpdate
      rcases notes with _ | nt
      · rfl
      · dsimp only
        split <;> rfl
    have hrid := List.find?_some hfind
    simp only [] at hrid
    refine ⟨?_, hstatus, ?_⟩
    · simp only [updateStatus, hc, if_true, findByIdAndUpdate, hfind]
      rw [hid, hstatus]
    · -- the updated collection: find? commutes with the id-preserving map
      have hpres : ∀ x : TradingReg,
          ((if x.id == n then applyStatusUpdate st notes x else x).id == n) = (x.id == n) := by
        intro x
        split
        · rename_i hx
          unfold applyStatusUpdate
          rcases notes with _ | nt
          · simp [hx]
          · dsimp only
            split <;> simp [hx]
        · rfl
      have hmap : (db.map (fun x => if x.id == n then applyStatusUpdate st notes x else x)).find?
            (fun x => x.id == n) =
          some (applyStatusUpdate st notes r) := by
        rw [List.find?_map]
        have : ((fun x : TradingReg => x.id == n) ∘
            (fun x => if x.id == n then applyStatusUpdate st notes x else x)) =
            (fun x : TradingReg => x.id == n) := by
          funext x
          exact hpres x
        rw [this, hfind]
        simp [Option.map, hrid]
      exact ⟨applyStatusUpdate st notes r, getRegistration_found _ n _ hmap, hstatus⟩
  · intro hst
    have hc : ¬(validStatuses.contains st = true) := fun hcc => hst (List.elem_iff.mp hcc)
    cases id <;>
      (simp only [updateStatus]
       rw [if_neg hc])

/-- C3 witness: a concrete single-record collection, updated to approved and
then probed with the non-enum value archived. -/
theorem C3_status_update_witness :
    updateStatus
        [{ id := 1, firstName := "A", lastName := "B", email := "a@b.c", phone := "1234567890",
           registrationStatus := "pending", adminNotes := "",
           verificationStatus :=
             { aadharVerified := false, panVerified := false, signatureVerified := false,
               emailVerified := false, phoneVerified := false },
           submissionDate := 5, aadharFile := none, panFile := none, signatureFile := none }]
        (RegId.valid 1) (some "archived") none =
      ({ status := 400, success := false, message := "Invalid status value", data := none },
       [{ id := 1, firstName := "A", lastName := "B", email := "a@b.c", phone := "1234567890",
          registrationStatus := "pending", adminNotes := "",
          verificationStatus :=
            { aadharVerified := false, panVerified := false, signatureVerified := false,
              emailVerified := false, phoneVerified := false },
          submissionDate := 5, aadharFile := none, panFile := none, signatureFile := none }]) :=
  (C3_status_update _ (RegId.valid 1) 1 "archived" none).2 (by decide)

/-- C2: PUT /:id/verify with a verificationType in the fixed set sets
exactly that flag of verificationStatus to the supplied boolean, preserves
every other verification flag and every other field of the record, and its
success response carries the recomputed isFullyVerified of the stored
flags; any verificationType outside the set yields 400 with the collection
unchanged. -/
theorem C2_verify_single_flag (db : List TradingReg) (id : RegId) (n : Nat)
    (t : String) (b : Bool) :
    (∀ r, t ∈ validTypes → db.find? (fun x => x.id == n) = some r →
      updateVerification db (RegId.valid n) (some t) b =
        ({ status := 200, success := true,
           message := "Verification status updated successfully",
           verificationStatus := some (setVerificationFlag t b r.verificationStatus),
           fullyVerified := some (isFullyVerified (setVerificationFlag t b r.verificationStatus)) },
         db.map (fun x =>
           if x.id == n then
             { x with verificationStatus := setVerificationFlag t b x.verificationStatus }
           else x)) ∧
      flagValue t (setVerificationFlag t b r.verificationStatus) = b ∧
      (∀ t', t' ∈ validTypes → t' ≠ t →
        flagValue t' (setVerificationFlag t b r.verificationStatus) =
          flagValue t' r.verificationStatus) ∧
      (∀ v : VerificationStatus,
        ({ r with verificationStatus := v } : TradingReg).registrationStatus =
            r.registrationStatus ∧
          ({ r with verificationStatus := v } : TradingReg).id = r.id)) ∧
    (t ∉ validTypes →
      updateVerification db id (some t) b =
        ({ status := 400, success := false, message := "Invalid verification type",
           verificationStatus := none, fullyVerified := none }, db)) := by
  constructor
  · intro r ht hfind
    have hc : validTypes.contains t = true := List.elem_eq_true_of_mem ht
    refine ⟨?_, ?_, ?_, fun v => ⟨rfl, rfl⟩⟩
    · simp only [updateVerification, hc, if_true, findByIdAndUpdate, hfind]
    · fin_cases ht <;> rfl
    · intro t' ht' hne
      fin_cases ht <;> fin_cases ht' <;> first
        | rfl
        | exact absurd rfl hne
  · intro ht
    have hc : ¬(validTypes.contains t = true) := fun hcc => ht (List.elem_iff.mp hcc)
    cases id <;>
      (simp only [updateVerification]
       rw [if_neg hc])

/-- C2 witness: a concrete record with emailVerified set to true; the other
flags keep their values, and the unknown type xyz is rejected. -/
theorem C2_verify_single_flag_witness :
    updateVerification
        [{ id := 2, firstName := "A", lastName := "B", email := "a@b.c", phone := "1234567890",
           registrationStatus := "pending", adminNotes := "",
           verificationStatus :=
             { aadharVerified := true, panVerified := false, signatureVerified := false,
               emailVerified := false, phoneVerified := true },
           submissionDate := 5, aadharFile := none, panFile := none, signatureFile := none }]
        (RegId.valid 2) (some "emailVerified") true =
      ({ status := 200, success := true,
         message := "Verification status updated successfully",
         verificationStatus := some
           { aadharVerified := true, panVerified := false, signatureVerified := false,
             emailVerified := true, phoneVerified := true },
         fullyVerified := some false },
       [{ id := 2, firstName := "A", lastName := "B", email := "a@b.c", phone := "1234567890",
          registrationStatus := "pending", adminNotes := "",
          verificationStatus :=
            { aadharVerified := true, panVerified := false, signatureVerified := false,
              emailVerified := true, phoneVerified := true },
          submissionDate := 5, aadharFile := none, panFile := none, signatureFile := none }]) := by
  have h := ((C2_verify_single_flag
    [{ id := 2, firstName := "A", lastName := "B", email := "a@b.c", phone := "1234567890",
       registrationStatus := "pending", adminNotes := "",
       verificationStatus :=
         { aadharVerified := true, panVerified := false, signatureVerified := false,
           emailVerified := false, phoneVerified := true },
       submissionDate := 5, aadharFile := none, panFile := none, signatureFile := none }]
    (RegId.valid 2) 2 "emailVerified" true).1 _ (by decide) rfl).1
  exact h.trans (by decide)

/-- Filtering a list by a predicate and by its negation partitions it. -/
theorem length_filter_partition {α : Type} (p : α → Bool) (l : List α) :
    (l.filter p).length + (l.filter (fun a => !(p a))).length = l.length := by
  induction l with
  | nil => rfl
  | cons a l ih =>
      by_cases h : p a = true <;> simp [List.filter_cons, h] <;> omega

/-- C8: GET /stats groups records by the AND of exactly the four flags
aadharVerified, signatureVerified, emailVerified and phoneVerified —
panVerified cannot influence the grouping — which coincides with the
isFullyVerified predicate; the two groups partition the collection; and the
today-count counts exactly the records whose submissionDate is at or after
local midnight (a record dated exactly midnight is counted, an earlier one
is not). -/
theorem C8_stats (db : List TradingReg) (m : Int) :
    (∀ r : TradingReg, aggFullyVerified r = isFullyVerified r.verificationStatus) ∧
    (∀ (r : TradingReg) (b : Bool),
      aggFullyVerified
          { r with verificationStatus := { r.verificationStatus with panVerified := b } } =
        aggFullyVerified r) ∧
    (getStats db m).verifiedCount =
      (db.filter (fun r => isFullyVerified r.verificationStatus)).length ∧
    (getStats db m).verifiedCount + (getStats db m).notVerifiedCount =
      (getStats db m).totalRegistrations ∧
    (∀ r : TradingReg, m ≤ r.submissionDate →
      (getStats (db ++ [r]) m).todayRegistrations =
        (getStats db m).todayRegistrations + 1) ∧
    (∀ r : TradingReg, r.submissionDate < m →
      (getStats (db ++ [r]) m).todayRegistrations = (getStats db m).todayRegistrations) := by
  refine ⟨fun r => rfl, fun r b => rfl, rfl, ?_, ?_, ?_⟩
  · exact length_filter_partition aggFullyVerified db
  · intro r h
    simp [getStats, List.filter_append, h]
  · intro r h
    have h' : ¬(m ≤ r.submissionDate) := by omega
    simp [getStats, List.filter_append, h']

/-- C8 witness: a record dated exactly local midnight is counted by the
today-count. -/
theorem C8_stats_witness :
    (getStats
        ([] ++ [{ id := 3, firstName := "A", lastName := "B", email := "a@b.c",
                  phone := "1234567890", registrationStatus := "pending", adminNotes := "",
                  verificationStatus :=
                    { aadharVerified := false, panVerified := false, signatureVerified := false,
                      emailVerified := false, phoneVerified := false },
                  submissionDate := 0, aadharFile := none, panFile := none,
                  signatureFile := none }]) 0).todayRegistrations =
      (getStats [] 0).todayRegistrations + 1 :=
  (C8_stats [] 0).2.2.2.2.1 _ (by decide)

/-- Membership after one conditional unlink. -/
theorem mem_unlinkIfExists (disk : List String) (p q : String) :
    q ∈ unlinkIfExists disk p ↔ q ∈ disk ∧ q ≠ p := by
  unfold unlinkIfExists
  split
  · simp [List.mem_filter]
  · rename_i h
    have hp : p ∉ disk := fun hm => h (List.elem_eq_true_of_mem hm)
    exact ⟨fun hq => ⟨hq, fun he => hp (he ▸ hq)⟩, And.left⟩

/-- Membership after unlinking a whole list of paths. -/
theorem mem_foldl_unlink (l : List String) (disk : List String) (q : String) :
    q ∈ l.foldl unlinkIfExists disk ↔ q ∈ disk ∧ q ∉ l := by
  induction l generalizing disk with
  | nil => simp
  | cons a l ih =>
      rw [List.foldl_cons, ih, mem_unlinkIfExists]
      simp only [List.mem_cons]
      tauto

/-- A path removed by the old-file unlinking of PUT /:id: the previously
stored path of a field for which this request carries a new upload. -/
def supersededPath (r : TradingReg) (files : UpdateFiles) (q : String) : Prop :=
  (files.aadharFile.isSome = true ∧ ∃ f, r.aadharFile = some f ∧ q = f.path) ∨
  (files.panFile.isSome = true ∧ ∃ f, r.panFile = some f ∧ q = f.path) ∨
  (files.signatureFile.isSome = true ∧ ∃ f, r.signatureFile = some f ∧ q = f.path)

/-- Membership after the old-file unlinking of PUT /:id. -/
theorem mem_diskAfterSupersede (r : TradingReg) (files : UpdateFiles)
    (disk : List String) (q : String) :
    q ∈ diskAfterSupersede r files disk ↔ q ∈ disk ∧ ¬ supersededPath r files q := by
  cases files with
  | mk fa fp fs =>
      rcases hra : r.aadharFile with _ | ra <;> rcases hrp : r.panFile with _ | rp <;>
        rcases hrs : r.signatureFile with _ | rs <;> cases fa <;> cases fp <;> cases fs <;>
          simp [diskAfterSupersede, supersededPath, mem_unlinkIfExists, hra, hrp, hrs] <;>
            tauto

/-- The referenced-path list of DELETE /:id, characterized. -/
theorem mem_refPaths (r : TradingReg) (p : String) :
    p ∈ refPaths r ↔ p ≠ "" ∧
      ((∃ f, r.aadharFile = some f ∧ p = f.path) ∨
       (∃ f, r.panFile = some f ∧ p = f.path) ∨
       (∃ f, r.signatureFile = some f ∧ p = f.path)) := by
  rcases hra : r.aadharFile with _ | ra <;> rcases hrp : r.panFile with _ | rp <;>
    rcases hrs : r.signatureFile with _ | rs <;>
      simp [refPaths, List.reduceOption, hra, hrp, hrs] <;> tauto

/-- C5: DELETE /:id on an existing record removes from disk each referenced
path present there (skipping the absent ones without error), removes the
record from the collection, and answers success even when some or every
referenced file was absent, including a record with no attached files;
moreover the embedded handlers delete an on-disk path only when deleting a
record referencing it, superseding that file field with a new upload, or
cleaning up the same request's own uploads after a failed write — never
otherwise. -/
theorem C5_delete_and_file_invariant (db : List TradingReg) (disk : List String)
    (n : Nat) (r : TradingReg) (hfind : db.find? (fun x => x.id == n) = some r) :
    deleteRegistration db disk (RegId.valid n) =
      ({ status := 200, success := true, message := "Registration deleted successfully" },
       db.eraseP (fun x => x.id == n), (refPaths r).foldl unlinkIfExists disk) ∧
    (∀ p, p ∈ refPaths r → p ∉ (deleteRegistration db disk (RegId.valid n)).2.2) ∧
    (∀ q, q ∈ disk → q ∉ refPaths r → q ∈ (deleteRegistration db disk (RegId.valid n)).2.2) ∧
    (∀ p, p ∈ refPaths r ↔ p ≠ "" ∧
      ((∃ f, r.aadharFile = some f ∧ p = f.path) ∨
       (∃ f, r.panFile = some f ∧ p = f.path) ∨
       (∃ f, r.signatureFile = some f ∧ p = f.path))) ∧
    (r.aadharFile = none → r.panFile = none → r.signatureFile = none →
      (deleteRegistration db disk (RegId.valid n)).2.2 = disk ∧
      (deleteRegistration db disk (RegId.valid n)).1.success = true) ∧
    (∀ p, p ∈ disk → p ∉ (deleteRegistration db disk (RegId.valid n)).2.2 →
      p ∈ refPaths r) ∧
    (∀ patch files saveErr p, p ∈ disk →
      p ∉ (updateRegistration db disk (RegId.valid n) patch files saveErr).2.2 →
      supersededPath r files p ∨ p ∈ writtenPathsOf files) ∧
    (∀ newReg writtenPaths saveErr p, p ∈ disk → p ∉ writtenPaths →
      p ∈ (createRegistration db disk newReg writtenPaths saveErr).2.2) := by
  have hdel : deleteRegistration db disk (RegId.valid n) =
      ({ status := 200, success := true, message := "Registration deleted successfully" },
       db.eraseP (fun x => x.id == n), (refPaths r).foldl unlinkIfExists disk) := by
    simp only [deleteRegistration, hfind]
  refine ⟨hdel, ?_, ?_, fun p => mem_refPaths r p, ?_, ?_, ?_, ?_⟩
  · intro p hp hmem
    rw [hdel] at hmem
    exact ((mem_foldl_unlink _ _ _).mp hmem).2 hp
  · intro q hq hnq
    rw [hdel]
    exact (mem_foldl_unlink _ _ _).mpr ⟨hq, hnq⟩
  · intro h1 h2 h3
    have hrp : refPaths r = [] := by
      simp [refPaths, h1, h2, h3, List.reduceOption]
    rw [hdel, hrp]
    exact ⟨rfl, rfl⟩
  · intro p hp hmem
    rw [hdel] at hmem
    by_contra hnp
    exact hmem ((mem_foldl_unlink _ _ _).mpr ⟨hp, hnp⟩)
  · intro patch files saveErr p hp hmem
    rcases saveErr with _ | e
    · simp only [updateRegistration, hfind] at hmem
      by_contra hno
      push_neg at hno
      exact hmem ((mem_diskAfterSupersede r files disk p).mpr ⟨hp, hno.1⟩)
    · simp only [updateRegistration, hfind] at hmem
      by_contra hno
      push_neg at hno
      refine hmem ((mem_foldl_unlink _ _ _).mpr ⟨?_, hno.2⟩)
      exact (mem_diskAfterSupersede r files disk p).mpr ⟨hp, hno.1⟩
  · intro newReg writtenPaths saveErr p hp hnp
    rcases saveErr with _ | e
    · simpa [createRegistration] using hp
    · simp only [createRegistration]
      exact (mem_foldl_unlink _ _ _).mpr ⟨hp, hnp⟩

/-- C5 witness: deleting a concrete record removes its aadhar file from
disk, leaves the unrelated path alone, and answers success. -/
theorem C5_delete_and_file_invariant_witness :
    deleteRegistration
        [{ id := 4, firstName := "A", lastName := "B", email := "a@b.c", phone := "1234567890",
           registrationStatus := "pending", adminNotes := "",
           verificationStatus :=
             { aadharVerified := false, panVerified := false, signatureVerified := false,
               emailVerified := false, phoneVerified := false },
           submissionDate := 5,
           aadharFile := some { filename := "aadharFile-1-2.png", originalName := "a.png",
                                mimetype := "image/png", size := 10,
                                path := "uploads/aadhar/aadharFile-1-2.png" },
           panFile := none, signatureFile := none }]
        ["uploads/aadhar/aadharFile-1-2.png", "uploads/misc/other.txt"]
        (RegId.valid 4) =
      ({ status := 200, success := true, message := "Registration deleted successfully" },
       [], ["uploads/misc/other.txt"]) := by
  have h := (C5_delete_and_file_invariant
    [{ id := 4, firstName := "A", lastName := "B", email := "a@b.c", phone := "1234567890",
       registrationStatus := "pending", adminNotes := "",
       verificationStatus :=
         { aadharVerified := false, panVerified := false, signatureVerified := false,
           emailVerified := false, phoneVerified := false },
       submissionDate := 5,
       aadharFile := some { filename := "aadharFile-1-2.png", originalName := "a.png",
                            mimetype := "image/png", size := 10,
                            path := "uploads/aadhar/aadharFile-1-2.png" },
       panFile := none, signatureFile := none }]
    ["uploads/aadhar/aadharFile-1-2.png", "uploads/misc/other.txt"] 4 _ rfl).1
  exact h.trans (by decide)

/-- C4 counterexample: a .txt upload under the aadharFile field is
rejected by multer, whose error bypasses the route handler; with no
error-handling middleware registered, Express's default final handler
answers 500, so the request yields no 400 and no field-keyed error map,
and no save is attempted — refuting the claimed 400 under the file key. -/
theorem C4_multer_rejection_counterexample :
    (postRegistrationPipeline [] []
        [{ fieldname := "aadharFile", originalname := "scan.txt",
           mimetype := "text/plain", size := 10 }]
        [] { id := 9, firstName := "A", lastName := "B", email := "a@b.c",
             phone := "1234567890", registrationStatus := "pending", adminNotes := "",
             verificationStatus :=
               { aadharVerified := false, panVerified := false, signatureVerified := false,
                 emailVerified := false, phoneVerified := false },
             submissionDate := 5, aadharFile := none, panFile := none,
             signatureFile := none }
        none).1 = PipelineOutcome.expressError 500 ∧
    (postRegistrationPipeline [] []
        [{ fieldname := "aadharFile", originalname := "scan.txt",
           mimetype := "text/plain", size := 10 }]
        [] { id := 9, firstName := "A", lastName := "B", email := "a@b.c",
             phone := "1234567890", registrationStatus := "pending", adminNotes := "",
             verificationStatus :=
               { aadharVerified := false, panVerified := false, signatureVerified := false,
                 emailVerified := false, phoneVerified := false },
             submissionDate := 5, aadharFile := none, panFile := none,
             signatureFile := none }
        none).1 ≠ PipelineOutcome.handled
          { status := 400, success := false, message := "Registration failed",
            errors := [("file",
              "Invalid file type for aadharFile. Only jpeg|jpg|png|pdf files are allowed.")] } ∧
    (postRegistrationPipeline [] []
        [{ fieldname := "aadharFile", originalname := "scan.txt",
           mimetype := "text/plain", size := 10 }]
        [] { id := 9, firstName := "A", lastName := "B", email := "a@b.c",
             phone := "1234567890", registrationStatus := "pending", adminNotes := "",
             verificationStatus :=
               { aadharVerified := false, panVerified := false, signatureVerified := false,
                 emailVerified := false, phoneVerified := false },
             submissionDate := 5, aadharFile := none, panFile := none,
             signatureFile := none }
        none).2.2.2 = false := by
  decide

/-- C4 (amended): File Intake accepts a file exactly when both its
lowercased extension and its declared content type pass the per-field
allow-list (aadharFile: jpeg/jpg/png/pdf; signatureFile: jpeg/jpg/png) and
rejects any file larger than 5 * 1024 * 1024 bytes; a rejected file stops
the request before the route handler runs, so no database write is
attempted and the collection and disk are untouched — but the rejection
surfaces as Express's default 500 response, never as a route-handler
response, so no 400 and no file-keyed error map are produced. -/
theorem C4_file_intake_amended (file : UploadFile) (files : List UploadFile)
    (db : List TradingReg) (disk : List String) (writtenPaths : List String)
    (newReg : TradingReg) (saveErr : Option JsError) :
    (fileFilter file = none ↔
      (regexTest (allowedTokens file.fieldname) ((extname file.originalname).toLower) = true ∧
       regexTest (allowedTokens file.fieldname) file.mimetype = true)) ∧
    (allowedTokens "aadharFile" = ["jpeg", "jpg", "png", "pdf"] ∧
     allowedTokens "signatureFile" = ["jpeg", "jpg", "png"]) ∧
    (5 * 1024 * 1024 < file.size → multerCheck file ≠ none) ∧
    (file ∈ files → multerCheck file ≠ none →
      (postRegistrationPipeline db disk files writtenPaths newReg saveErr).1 =
        PipelineOutcome.expressError 500 ∧
      (∀ resp, (postRegistrationPipeline db disk files writtenPaths newReg saveErr).1 ≠
        PipelineOutcome.handled resp) ∧
      (postRegistrationPipeline db disk files writtenPaths newReg saveErr).2.2.2 = false ∧
      (postRegistrationPipeline db disk files writtenPaths newReg saveErr).2.1 = db ∧
      (postRegistrationPipeline db disk files writtenPaths newReg saveErr).2.2.1 = disk) := by
  refine ⟨?_, ⟨rfl, rfl⟩, ?_, ?_⟩
  · unfold fileFilter
    constructor
    · intro h
      by_cases hm : regexTest (allowedTokens file.fieldname) file.mimetype = true <;>
        by_cases he :
            regexTest (allowedTokens file.fieldname) ((extname file.originalname).toLower) = true <;>
          simp [hm, he] at h ⊢
    · intro ⟨he, hm⟩
      simp [hm, he]
  · intro hbig
    unfold multerCheck
    rcases hf : fileFilter file with _ | msg
    · simp [fileSizeLimit, hbig]
    · simp
  · intro hmem hcheck
    have hrun : multerRun files ≠ none := by
      rw [multerRun]
      intro hnone
      exact hcheck ((List.findSome?_eq_none_iff).mp hnone file hmem)
    rcases hr : multerRun files with _ | e
    · exact absurd hr hrun
    · simp [postRegistrationPipeline, hr]

/-- C4 amended witness: the .txt upload under the aadharFile field makes
the pipeline answer the default 500 with no save attempted. -/
theorem C4_file_intake_amended_witness :
    (postRegistrationPipeline [] []
        [{ fieldname := "aadharFile", originalname := "scan.txt",
           mimetype := "text/plain", size := 10 }]
        [] { id := 9, firstName := "A", lastName := "B", email := "a@b.c",
             phone := "1234567890", registrationStatus := "pending", adminNotes := "",
             verificationStatus :=
               { aadharVerified := false, panVerified := false, signatureVerified := false,
                 emailVerified := false, phoneVerified := false },
             submissionDate := 5, aadharFile := none, panFile := none,
             signatureFile := none }
        none).1 = PipelineOutcome.expressError 500 :=
  ((C4_file_intake_amended
    { fieldname := "aadharFile", originalname := "scan.txt",
      mimetype := "text/plain", size := 10 }
    [{ fieldname := "aadharFile", originalname := "scan.txt",
       mimetype := "text/plain", size := 10 }]
    [] [] []
    { id := 9, firstName := "A", lastName := "B", email := "a@b.c",
      phone := "1234567890", registrationStatus := "pending", adminNotes := "",
      verificationStatus :=
        { aadharVerified := false, panVerified := false, signatureVerified := false,
          emailVerified := false, phoneVerified := false },
      submissionDate := 5, aadharFile := none, panFile := none, signatureFile := none }
    none).2.2.2 (by decide) (by decide)).1

/-- C1 counterexample: a concrete generic-registration POST /submit request
whose persistence attempt fails (a validation error from save) answers 500,
not 400 with a field-keyed map, and the file written during the request is
still on disk afterwards — refuting the claim for the generic registration
resource. -/
theorem C1_submit_failure_counterexample :
    (submitForm
        { firstName := JSVal.vStr "John", lastName := JSVal.vStr "Doe",
          email := JSVal.vStr "j@d.com" }
        (some "uploads/aadhar/aadharFile-1-2.png")
        (some "uploads/signatures/signatureFile-1-2.png")
        ["uploads/aadhar/aadharFile-1-2.png", "uploads/signatures/signatureFile-1-2.png"]
        (some (JsError.validationError [("phone", "Phone number must be 10 digits")]))).1.status
        = 500 ∧
    (submitForm
        { firstName := JSVal.vStr "John", lastName := JSVal.vStr "Doe",
          email := JSVal.vStr "j@d.com" }
        (some "uploads/aadhar/aadharFile-1-2.png")
        (some "uploads/signatures/signatureFile-1-2.png")
        ["uploads/aadhar/aadharFile-1-2.png", "uploads/signatures/signatureFile-1-2.png"]
        (some (JsError.validationError [("phone", "Phone number must be 10 digits")]))).1.status
        ≠ 400 ∧
    "uploads/aadhar/aadharFile-1-2.png" ∈
      (submitForm
        { firstName := JSVal.vStr "John", lastName := JSVal.vStr "Doe",
          email := JSVal.vStr "j@d.com" }
        (some "uploads/aadhar/aadharFile-1-2.png")
        (some "uploads/signatures/signatureFile-1-2.png")
        ["uploads/aadhar/aadharFile-1-2.png", "uploads/signatures/signatureFile-1-2.png"]
        (some (JsError.validationError [("phone", "Phone number must be 10 digits")]))).2 := by
  decide

/-- C1 (amended): for the trading-registration POST / handler a failed
persistence attempt deletes every file written during the request and
answers 400 with the field-keyed error map, leaving the collection
unchanged; the generic POST /submit handler instead never touches the disk
and answers a failed persistence attempt with a generic 500 (its explicit
required-field check being the only 400). -/
theorem C1_failure_cleanup_amended (db : List TradingReg) (disk : List String)
    (newReg : TradingReg) (writtenPaths : List String) (e : JsError)
    (body : SubmitBody) (ap sp : Option String) (disk2 : List String) :
    ((createRegistration db disk newReg writtenPaths (some e)).1.status = 400 ∧
     (createRegistration db disk newReg writtenPaths (some e)).1.errors =
       handleRegistrationErrors e ∧
     (createRegistration db disk newReg writtenPaths (some e)).2.1 = db ∧
     (∀ p, p ∈ writtenPaths →
       p ∉ (createRegistration db disk newReg writtenPaths (some e)).2.2)) ∧
    ((submitForm body ap sp disk2 (some e)).2 = disk2 ∧
     ((submitForm body ap sp disk2 (some e)).1.status = 500 ∨
      (submitForm body ap sp disk2 (some e)).1.status = 400)) := by
  constructor
  · refine ⟨rfl, rfl, rfl, ?_⟩
    intro p hp hmem
    exact ((mem_foldl_unlink _ _ _).mp hmem).2 hp
  · unfold submitForm
    dsimp only
    split
    · exact ⟨rfl, Or.inr rfl⟩
    · exact ⟨rfl, Or.inl rfl⟩

/-- C1 amended witness: trading create failure at a concrete input removes
the one written file and answers 400 with the validation error map; the
same failing save through /submit leaves the disk unchanged. -/
theorem C1_failure_cleanup_amended_witness :
    (createRegistration []
        ["uploads/aadhar/aadharFile-1-2.png"]
        { id := 9, firstName := "A", lastName := "B", email := "a@b.c",
          phone := "1234567890", registrationStatus := "pending", adminNotes := "",
          verificationStatus :=
            { aadharVerified := false, panVerified := false, signatureVerified := false,
              emailVerified := false, phoneVerified := false },
          submissionDate := 5, aadharFile := none, panFile := none, signatureFile := none }
        ["uploads/aadhar/aadharFile-1-2.png"]
        (some (JsError.validationError [("phone", "Phone number must be 10 digits")]))).1.status
      = 400 ∧
    "uploads/aadhar/aadharFile-1-2.png" ∉
      (createRegistration []
        ["uploads/aadhar/aadharFile-1-2.png"]
        { id := 9, firstName := "A", lastName := "B", email := "a@b.c",
          phone := "1234567890", registrationStatus := "pending", adminNotes := "",
          verificationStatus :=
            { aadharVerified := false, panVerified := false, signatureVerified := false,
              emailVerified := false, phoneVerified := false },
          submissionDate := 5, aadharFile := none, panFile := none, signatureFile := none }
        ["uploads/aadhar/aadharFile-1-2.png"]
        (some (JsError.validationError [("phone", "Phone number must be 10 digits")]))).2.2 := by
  have h := (C1_failure_cleanup_amended []
    ["uploads/aadhar/aadharFile-1-2.png"]
    { id := 9, firstName := "A", lastName := "B", email := "a@b.c",
      phone := "1234567890", registrationStatus := "pending", adminNotes := "",
      verificationStatus :=
        { aadharVerified := false, panVerified := false, signatureVerified := false,
          emailVerified := false, phoneVerified := false },
      submissionDate := 5, aadharFile := none, panFile := none, signatureFile := none }
    ["uploads/aadhar/aadharFile-1-2.png"]
    (JsError.validationError [("phone", "Phone number must be 10 digits")])
    { firstName := JSVal.vStr "John", lastName := JSVal.vStr "Doe",
      email := JSVal.vStr "j@d.com" }
    none none []).1
  exact ⟨h.1, h.2.2.2 _ (by decide)⟩

/-- firstName passes exactly when present with trimmed length in [2, 50]. -/
theorem checkFirstName_eq_nil (u : UserFormInput) :
    checkFirstName u = [] ↔
      ∃ s, u.firstName = some s ∧ 2 ≤ s.trim.length ∧ s.trim.length ≤ 50 := by
  cases h : u.firstName with
  | none => simp [checkFirstName, h]
  | some s =>
      simp only [checkFirstName, h]
      split_ifs with h1 h2 h3 <;> simp <;> omega

/-- lastName passes exactly when present with trimmed length in [2, 50]. -/
theorem checkLastName_eq_nil (u : UserFormInput) :
    checkLastName u = [] ↔
      ∃ s, u.lastName = some s ∧ 2 ≤ s.trim.length ∧ s.trim.length ≤ 50 := by
  cases h : u.lastName with
  | none => simp [checkLastName, h]
  | some s =>
      simp only [checkLastName, h]
      split_ifs with h1 h2 h3 <;> simp <;> omega

/-- email passes exactly when present, nonempty after trim and lowercase,
and matching the email pattern. -/
theorem checkEmail_eq_nil (u : UserFormInput) :
    checkEmail u = [] ↔
      ∃ s, u.email = some s ∧ s.trim.toLower.length ≠ 0 ∧
        emailMatch s.trim.toLower = true := by
  cases h : u.email with
  | none => simp [checkEmail, h]
  | some s =>
      simp only [checkEmail, h]
      split_ifs with h1 h2 <;> simp_all

/-- phone passes exactly when present and exactly 10 digits. -/
theorem checkPhone_eq_nil (u : UserFormInput) :
    checkPhone u = [] ↔ ∃ s, u.phone = some s ∧ digitsExactly 10 s = true := by
  cases h : u.phone with
  | none => simp [checkPhone, h]
  | some s =>
      simp only [checkPhone, h]
      split_ifs with h1 h2 <;> simp_all [digitsExactly] <;> tauto

/-- dateOfBirth passes exactly when present and strictly before now. -/
theorem checkDateOfBirth_eq_nil (now : Int) (u : UserFormInput) :
    checkDateOfBirth now u = [] ↔
      ∃ d, u.dateOfBirth = some d ∧ d < now := by
  cases h : u.dateOfBirth with
  | none => simp [checkDateOfBirth, h]
  | some d =>
      simp only [checkDateOfBirth, h]
      split_ifs with h1 <;> simp_all

/-- address passes exactly when present with length at least 5. -/
theorem checkAddress_eq_nil (u : UserFormInput) :
    checkAddress u = [] ↔ ∃ s, u.address = some s ∧ 5 ≤ s.length := by
  cases h : u.address with
  | none => simp [checkAddress, h]
  | some s =>
      simp only [checkAddress, h]
      split_ifs with h1 h2 <;> simp <;> omega

/-- city passes exactly when present and nonempty. -/
theorem checkCity_eq_nil (u : UserFormInput) :
    checkCity u = [] ↔ ∃ s, u.city = some s ∧ s.length ≠ 0 := by
  cases h : u.city with
  | none => simp [checkCity, h]
  | some s =>
      simp only [checkCity, h]
      split_ifs with h1 <;> simp_all

/-- state passes exactly when present and nonempty. -/
theorem checkState_eq_nil (u : UserFormInput) :
    checkState u = [] ↔ ∃ s, u.state = some s ∧ s.length ≠ 0 := by
  cases h : u.state with
  | none => simp [checkState, h]
  | some s =>
      simp only [checkState, h]
      split_ifs with h1 <;> simp_all

/-- pincode passes exactly when present and exactly 6 digits. -/
theorem checkPincode_eq_nil (u : UserFormInput) :
    checkPincode u = [] ↔ ∃ s, u.pincode = some s ∧ digitsExactly 6 s = true := by
  cases h : u.pincode with
  | none => simp [checkPincode, h]
  | some s =>
      simp only [checkPincode, h]
      split_ifs with h1 h2 <;> simp_all [digitsExactly] <;> tauto

/-- aadharNumber passes exactly when present and exactly 12 digits. -/
theorem checkAadharNumber_eq_nil (u : UserFormInput) :
    checkAadharNumber u = [] ↔
      ∃ s, u.aadharNumber = some s ∧ digitsExactly 12 s = true := by
  cases h : u.aadharNumber with
  | none => simp [checkAadharNumber, h]
  | some s =>
      simp only [checkAadharNumber, h]
      split_ifs with h1 h2 <;> simp_all [digitsExactly] <;> tauto

/-- aadharFile passes exactly when a nonempty path is present. -/
theorem checkAadharFile_eq_nil (u : UserFormInput) :
    checkAadharFile u = [] ↔ ∃ s, u.aadharFile = some s ∧ s.length ≠ 0 := by
  cases h : u.aadharFile with
  | none => simp [checkAadharFile, h]
  | some s =>
      simp only [checkAadharFile, h]
      split_ifs with h1 <;> simp_all

/-- signatureFile passes exactly when a nonempty path is present. -/
theorem checkSignatureFile_eq_nil (u : UserFormInput) :
    checkSignatureFile u = [] ↔ ∃ s, u.signatureFile = some s ∧ s.length ≠ 0 := by
  cases h : u.signatureFile with
  | none => simp [checkSignatureFile, h]
  | some s =>
      simp only [checkSignatureFile, h]
      split_ifs with h1 <;> simp_all

/-- agreeTerms passes exactly when it is the literal boolean true. -/
theorem checkAgreeTerms_eq_nil (u : UserFormInput) :
    checkAgreeTerms u = [] ↔ u.agreeTerms = some true := by
  cases h : u.agreeTerms with
  | none => simp [checkAgreeTerms, h]
  | some b => cases b <;> simp [checkAgreeTerms, h]

/-- C7: a UserFormSubmission is persisted exactly when every declarative
rule of userFormSchema holds — names 2-50 characters after trim, email
pattern-matched, phone 10 digits, date of birth strictly before now,
address at least 5 characters, pincode 6 digits, Aadhar number 12 digits,
both file paths present, agreeTerms the literal true — with agreeMarketing
defaulting to false when absent, and each violated rule contributes its
field-keyed message to the error map of the failed outcome. -/
theorem C7_user_form_validation (now : Int) (u : UserFormInput) :
    ((∃ d, saveUserForm now u = SubmitOutcome.saved d) ↔
      ((∃ s, u.firstName = some s ∧ 2 ≤ s.trim.length ∧ s.trim.length ≤ 50) ∧
       (∃ s, u.lastName = some s ∧ 2 ≤ s.trim.length ∧ s.trim.length ≤ 50) ∧
       (∃ s, u.email = some s ∧ s.trim.toLower.length ≠ 0 ∧
         emailMatch s.trim.toLower = true) ∧
       (∃ s, u.phone = some s ∧ digitsExactly 10 s = true) ∧
       (∃ d, u.dateOfBirth = some d ∧ d < now) ∧
       (∃ s, u.address = some s ∧ 5 ≤ s.length) ∧
       (∃ s, u.city = some s ∧ s.length ≠ 0) ∧
       (∃ s, u.state = some s ∧ s.length ≠ 0) ∧
       (∃ s, u.pincode = some s ∧ digitsExactly 6 s = true) ∧
       (∃ s, u.aadharNumber = some s ∧ digitsExactly 12 s = true) ∧
       (∃ s, u.aadharFile = some s ∧ s.length ≠ 0) ∧
       (∃ s, u.signatureFile = some s ∧ s.length ≠ 0) ∧
       u.agreeTerms = some true)) ∧
    (∀ d, saveUserForm now u = SubmitOutcome.saved d →
      d.agreeMarketing = u.agreeMarketing.getD false ∧ d.agreeTerms = true) ∧
    (u.firstName = none →
      ("firstName", "First name is required") ∈ validateUserForm now u) ∧
    (∀ s, u.firstName = some s → s.trim.length ≠ 0 → s.trim.length < 2 →
      ("firstName", "First name must be at least 2 characters") ∈ validateUserForm now u) ∧
    (∀ s, u.phone = some s → s.length ≠ 0 → digitsExactly 10 s = false →
      ("phone", "Phone number must be 10 digits") ∈ validateUserForm now u) ∧
    (∀ d, u.dateOfBirth = some d → ¬(d < now) →
      ("dateOfBirth", "Date of birth must be in the past") ∈ validateUserForm now u) ∧
    (∀ s, u.pincode = some s → s.length ≠ 0 → digitsExactly 6 s = false →
      ("pincode", "Pincode must be 6 digits") ∈ validateUserForm now u) ∧
    (∀ s, u.aadharNumber = some s → s.length ≠ 0 → digitsExactly 12 s = false →
      ("aadharNumber", "Aadhar number must be 12 digits") ∈ validateUserForm now u) ∧
    (u.aadharFile = none →
      ("aadharFile", "Aadhar file is required") ∈ validateUserForm now u) ∧
    (u.signatureFile = none →
      ("signatureFile", "Signature file is required") ∈ validateUserForm now u) ∧
    (u.agreeTerms = some false →
      ("agreeTerms", "You must accept the terms and conditions") ∈ validateUserForm now u) ∧
    (∀ errs, saveUserForm now u = SubmitOutcome.failed errs → errs ≠ []) := by
  have hsave : (∃ d, saveUserForm now u = SubmitOutcome.saved d) ↔
      validateUserForm now u = [] := by
    rcases hv : validateUserForm now u with _ | ⟨a, l⟩ <;> simp [saveUserForm, hv]
  have hval : validateUserForm now u = [] ↔
      (checkFirstName u = [] ∧ checkLastName u = [] ∧ checkEmail u = [] ∧
       checkPhone u = [] ∧ checkDateOfBirth now u = [] ∧ checkAddress u = [] ∧
       checkCity u = [] ∧ checkState u = [] ∧ checkPincode u = [] ∧
       checkAadharNumber u = [] ∧ checkAadharFile u = [] ∧
       checkSignatureFile u = [] ∧ checkAgreeTerms u = []) := by
    rw [validateUserForm]
    simp only [List.append_eq_nil]
    tauto
  refine ⟨?_, ?_, ?_, ?_, ?_, ?_, ?_, ?_, ?_, ?_, ?_, ?_⟩
  · rw [hsave, hval, checkFirstName_eq_nil, checkLastName_eq_nil, checkEmail_eq_nil,
      checkPhone_eq_nil, checkDateOfBirth_eq_nil, checkAddress_eq_nil, checkCity_eq_nil,
      checkState_eq_nil, checkPincode_eq_nil, checkAadharNumber_eq_nil,
      checkAadharFile_eq_nil, checkSignatureFile_eq_nil, checkAgreeTerms_eq_nil]
  · intro d h
    rcases hv : validateUserForm now u with _ | ⟨a, l⟩ <;> rw [saveUserForm, hv] at h
    · injection h with h
      subst h
      refine ⟨rfl, ?_⟩
      have hterms : checkAgreeTerms u = [] := (hval.mp hv).2.2.2.2.2.2.2.2.2.2.2.2
      have ht := (checkAgreeTerms_eq_nil u).mp hterms
      simp [ht]
    · exact absurd h (by simp)
  · intro h
    simp [validateUserForm, List.mem_append, checkFirstName, h]
  · intro s hs h0 h2
    simp [validateUserForm, List.mem_append, checkFirstName, hs, h0, h2]
  · intro s hs h0 hnot
    simp [validateUserForm, List.mem_append, checkPhone, hs, h0, hnot]
  · intro d hd hnot
    simp [validateUserForm, List.mem_append, checkDateOfBirth, hd, hnot]
  · intro s hs h0 hnot
    simp [validateUserForm, List.mem_append, checkPincode, hs, h0, hnot]
  · intro s hs h0 hnot
    simp [validateUserForm, List.mem_append, checkAadharNumber, hs, h0, hnot]
  · intro h
    simp [validateUserForm, List.mem_append, checkAadharFile, h]
  · intro h
    simp [validateUserForm, List.mem_append, checkSignatureFile, h]
  · intro h
    simp [validateUserForm, List.mem_append, checkAgreeTerms, h]
  · intro errs h
    rcases hv : validateUserForm now u with _ | ⟨a, l⟩ <;> rw [saveUserForm, hv] at h
    · exact absurd h (by simp)
    · injection h with h
      subst h
      simp

/-- C7 witness: a submission missing firstName carries the required message
in its error map. -/
theorem C7_user_form_validation_witness :
    ("firstName", "First name is required") ∈
      validateUserForm 1000
        { firstName := none, lastName := some "Doe", email := some "j@d.com",
          phone := some "1234567890", dateOfBirth := some 5, address := some "5 Main Street",
          city := some "Pune", state := some "MH", pincode := some "411001",
          aadharNumber := some "123456789012", aadharFile := some "uploads/aadhar/a.png",
          signatureFile := some "uploads/signatures/s.png", agreeTerms := some true,
          agreeMarketing := none } :=
  (C7_user_form_validation 1000 _).2.2.1 rfl

end TradingServer
